import Mathlib

/-!
# CyGate4-FobReader-Test: the fob-reader protocol driver of `src/main.cpp`

A shallow embedding of the sketch.  The globals `deviceAddr` and `tag` and the
state of the bus library live in one explicit `Sketch` record that every
function takes and gives back.  Bytes are natural numbers; the places where the
C++ source narrows a value to eight bits carry an explicit `% 256`.

The `Wire` object belongs to the platform, not to this repository.  It is
modelled by `TwoWire`: the device side is a status code per address (what
`endTransmission` reports) and a script of replies (what the receive buffer
holds after each successive `requestFrom`); the library side is the transmit
and receive buffers together with two logs, one of the finished transmissions
and one of the read requests.  The script is not cut to the requested quantity,
so the model admits every reply a library could hand over.

`Serial` output is debug printing and is left out.
-/

set_option maxRecDepth 100000

namespace FobReader

/-! ## Constants (main.cpp 8-25) -/

def FOBREADER_DETECT : Nat := 0xFA
def FOBREADER_INIT : Nat := 0xFB
def FOBREADER_GET_FIRMWARE : Nat := 0xFC
def FOBREADER_GET_TAGS : Nat := 0xFD
def FOBREADER_GET_AVAILABLE : Nat := 0xFE
def FOBREADER_SELF_TEST : Nat := 0xDC
def FOBREADER_DETECT_ACK : Nat := 0xDA
def FOBREADER_MIFARE_VERSION : Nat := 0xDB
def FOBREADER_BAD_CARD : Nat := 0xDD

def FOBREADER_FW_PREAMBLE_SIZE : Nat := 2
def FOBREADER_MAX_TAG_SIZE : Nat := 10
def FOBREADER_TAG_PRESENCE_SIZE : Nat := 2
def FOBREADER_TAG_DATA_SIZE : Nat := 14
def FOBREADER_MIFARE_VER_SIZE : Nat := 2
def FOBREADER_SELF_TEST_SIZE : Nat := 2

/-! ## Data model -/

/-- The `Tag` struct (main.cpp 32-37); `tagBytes` has `FOBREADER_MAX_TAG_SIZE` cells. -/
structure Tag where
  records : Nat
  tagBytes : List Nat
  size : Nat
  id : Nat
  deriving DecidableEq, Repr

/-- The bus library object `Wire` with the device behind it. -/
structure TwoWire where
  /-- Device side: the status `endTransmission` reports for an address (0 = acknowledged). -/
  status : Nat → Nat
  /-- Device side: what the receive buffer holds after each successive `requestFrom`. -/
  replies : List (List Nat)
  txAddress : Nat
  txBuffer : List Nat
  rxBuffer : List Nat
  /-- Log of finished transmissions: address and the bytes written, oldest first. -/
  sent : List (Nat × List Nat)
  /-- Log of read requests: address and quantity, oldest first. -/
  requested : List (Nat × Nat)

/-- The globals of the sketch (main.cpp 39-40) and the bus. -/
structure Sketch where
  deviceAddr : Nat
  tag : Tag
  wire : TwoWire

/-- Conversion of an `int` to `uint8_t`. -/
def toByte (v : Int) : Nat := (v % 256).toNat

namespace TwoWire

/-- The call `Wire.begin()`: the buffers start empty. -/
def begin (w : TwoWire) : TwoWire :=
  { w with txBuffer := [], rxBuffer := [] }

/-- The call `Wire.beginTransmission(address)`. -/
def beginTransmission (w : TwoWire) (address : Nat) : TwoWire :=
  { w with txAddress := address, txBuffer := [] }

/-- The call `Wire.write(b)`: queue one byte. -/
def write (w : TwoWire) (b : Nat) : TwoWire :=
  { w with txBuffer := w.txBuffer ++ [b % 256] }

/-- The call `Wire.endTransmission()`: the queued bytes go out; the device's status comes back. -/
def endTransmission (w : TwoWire) : Nat × TwoWire :=
  (w.status w.txAddress,
   { w with sent := w.sent ++ [(w.txAddress, w.txBuffer)], txBuffer := [] })

/-- The call `Wire.requestFrom(address, quantity)`: the next scripted reply fills the receive
buffer (nothing arrives once the script is exhausted). -/
def requestFrom (w : TwoWire) (address quantity : Nat) : TwoWire :=
  { w with
    requested := w.requested ++ [(address, quantity)],
    rxBuffer := w.replies.headD [],
    replies := w.replies.tail }

/-- The call `Wire.available()`. -/
def available (w : TwoWire) : Int := w.rxBuffer.length

/-- The call `Wire.read()`: the next received byte, or `-1` when the buffer is empty. -/
def read (w : TwoWire) : Int × TwoWire :=
  match w.rxBuffer with
  | [] => (-1, w)
  | b :: bs => ((b : Int), { w with rxBuffer := bs })

end TwoWire

/-- How a call of a driver function ends. -/
inductive Outcome (α : Type) where
  /-- The function returned `a`. -/
  | done (a : α) (s : Sketch)
  /-- The wait loop `while (Wire.available() < 1) delay(1);` never exits. -/
  | blocked (s : Sketch)
  /-- A store outside the bounds of `tag.tagBytes` was reached. -/
  | fault (s : Sketch)

namespace Outcome

/-- The sketch state at the end of the call. -/
def state {α : Type} : Outcome α → Sketch
  | done _ s => s
  | blocked s => s
  | fault s => s

/-- The returned value, when the call returned. -/
def value? {α : Type} : Outcome α → Option α
  | done a _ => some a
  | blocked _ => none
  | fault _ => none

/-- Sequencing: the rest of the function runs only after a return. -/
def bind {α β : Type} (o : Outcome α) (f : α → Sketch → Outcome β) : Outcome β :=
  match o with
  | done a s => f a s
  | blocked s => blocked s
  | fault s => fault s

/-- Whether the call ended in a store out of bounds. -/
def isFault {α : Type} : Outcome α → Bool
  | fault _ => true
  | _ => false

end Outcome

/-! ## The driver (main.cpp 42-317) -/

/-- The function `clearTag` (main.cpp 42-49); its loop stores 0xFF in each of the
`FOBREADER_MAX_TAG_SIZE` cells of `tagBytes`. -/
def clearTag (s : Sketch) : Sketch :=
  { s with tag :=
      { id := 0xFF, size := 0, records := 0,
        tagBytes := List.replicate FOBREADER_MAX_TAG_SIZE 0xFF } }

/-- One pass of the scan loop of `initCommBus` (main.cpp 80-101). -/
def scanAddress (s : Sketch) (address : Nat) : Sketch :=
  let r := (s.wire.beginTransmission address).endTransmission
  if r.1 = 0 then { s with deviceAddr := address, wire := r.2 }
  else { s with wire := r.2 }

/-- The function `initCommBus` (main.cpp 69-113): `Wire.begin()`, then the scan of the
addresses 0..126 in ascending order. -/
def initCommBus (s : Sketch) : Sketch :=
  (List.range 127).foldl scanAddress { s with wire := s.wire.begin }

/-- The function `writeByte` (main.cpp 115-119). -/
def writeByte (b : Nat) (s : Sketch) : Sketch :=
  { s with wire := (((s.wire.beginTransmission s.deviceAddr).write b).endTransmission).2 }

/-- The function `readByte` (main.cpp 121-128).  `requestFrom` returns with the receive buffer
filled, so the wait loop either falls through at once or never. -/
def readByte (s : Sketch) : Outcome Nat :=
  let w := s.wire.requestFrom s.deviceAddr (1 % 256)
  if w.available < 1 then .blocked { s with wire := w }
  else .done (toByte w.read.1) { s with wire := w.read.2 }

/-- The fill loop of `readBytes` (main.cpp 137-139): `n` calls of `Wire.read()`. -/
def readLoop : Nat → TwoWire → List Nat × TwoWire
  | 0, w => ([], w)
  | n + 1, w =>
    let r := readLoop n w.read.2
    (toByte w.read.1 :: r.1, r.2)

/-- The function `readBytes` (main.cpp 130-142); the quantity is cast to `uint8_t`. -/
def readBytes (len : Nat) (s : Sketch) : Outcome (List Nat) :=
  let w := s.wire.requestFrom s.deviceAddr (len % 256)
  if w.available < 1 then .blocked { s with wire := w }
  else
    let r := readLoop len w
    .done r.1 { s with wire := r.2 }

/-- The function `detect` (main.cpp 144-158). -/
def detect (s : Sketch) : Outcome Bool :=
  (readByte (writeByte FOBREADER_DETECT s)).bind fun response s1 =>
    .done (response == FOBREADER_DETECT_ACK) s1

/-- The function `doInit` (main.cpp 160-166). -/
def doInit (s : Sketch) : Outcome Bool :=
  (readByte (writeByte FOBREADER_INIT s)).bind fun response s1 =>
    .done (response == FOBREADER_INIT) s1

/-- The function `selfTest` (main.cpp 168-181); `(bool)response[1]` is `response[1] != 0`. -/
def selfTest (s : Sketch) : Outcome Bool :=
  (readBytes FOBREADER_SELF_TEST_SIZE (writeByte FOBREADER_SELF_TEST s)).bind fun response s1 =>
    if response.getD 0 0 = FOBREADER_SELF_TEST then .done (response.getD 1 0 != 0) s1
    else .done false s1

/-- The scan loop of `getFirmwareVersion` (main.cpp 195-199): `n` passes from index `i`. -/
def appendVersionChars (val : List Nat) : Nat → Nat → String → String
  | 0, _, result => result
  | n + 1, i, result =>
    appendVersionChars val n (i + 1)
      (if val.getD i 0 ≠ 0 then result.push (Char.ofNat (val.getD i 0)) else result)

/-- The function `getFirmwareVersion` (main.cpp 183-206). -/
def getFirmwareVersion (s : Sketch) : Outcome String :=
  (readBytes FOBREADER_FW_PREAMBLE_SIZE (writeByte FOBREADER_GET_FIRMWARE s)).bind
    fun response s1 =>
      if response.getD 0 0 = FOBREADER_GET_FIRMWARE then
        let len := response.getD 1 0
        let payloadSize := len + FOBREADER_FW_PREAMBLE_SIZE
        (readBytes payloadSize (writeByte FOBREADER_GET_FIRMWARE s1)).bind fun val s2 =>
          .done (appendVersionChars val (payloadSize - FOBREADER_FW_PREAMBLE_SIZE)
                  FOBREADER_FW_PREAMBLE_SIZE "") s2
      else .done "" s1

/-- The function `isNewTagPresent` (main.cpp 208-222). -/
def isNewTagPresent (s : Sketch) : Outcome Bool :=
  (readBytes FOBREADER_TAG_PRESENCE_SIZE (writeByte FOBREADER_GET_AVAILABLE s)).bind
    fun response s1 =>
      if response.getD 0 0 = FOBREADER_GET_AVAILABLE then .done (response.getD 1 0 == 0x01) s1
      else .done false s1

/-- The copy loop of `getTagData` (main.cpp 236-238): `n` passes from index `i`.  A pass with
`i` outside `tag.tagBytes` is a store out of bounds. -/
def copyTagBytes (response : List Nat) : Nat → Nat → Sketch → Outcome Unit
  | 0, _, s => .done () s
  | n + 1, i, s =>
    if i < FOBREADER_MAX_TAG_SIZE then
      copyTagBytes response n (i + 1)
        { s with tag := { s.tag with tagBytes := s.tag.tagBytes.set i (response.getD (i + 3) 0) } }
    else .fault s

/-- The function `getTagData` (main.cpp 224-245). -/
def getTagData (s : Sketch) : Outcome Bool :=
  (readBytes FOBREADER_TAG_DATA_SIZE (writeByte FOBREADER_GET_TAGS s)).bind fun response s1 =>
    if response.getD 0 0 = FOBREADER_GET_TAGS then
      let s2 := clearTag s1
      let s3 := { s2 with tag := { s2.tag with id := 0 } }
      let s4 := { s3 with tag := { s3.tag with records := response.getD 1 0 } }
      let s5 := { s4 with tag := { s4.tag with size := response.getD 2 0 } }
      (copyTagBytes response s5.tag.size 0 s5).bind fun _ s6 => .done true s6
    else .done false s1

/-- The function `getMiFareVersion` (main.cpp 247-260). -/
def getMiFareVersion (s : Sketch) : Outcome Nat :=
  (readBytes FOBREADER_MIFARE_VER_SIZE (writeByte FOBREADER_MIFARE_VERSION s)).bind
    fun response s1 =>
      if response.getD 0 0 = FOBREADER_MIFARE_VERSION then .done (response.getD 1 0) s1
      else .done 0xFF s1

/-- The function `xlateMiFareVersion` (main.cpp 262-286). -/
def xlateMiFareVersion (version : Nat) : String :=
  match version with
  | 0x88 => "(clone)"
  | 0x90 => "v0.0"
  | 0x91 => "v1.0"
  | 0x92 => "v2.0"
  | 0x12 => "conterfeit chip"
  | _ => "unknown"

/-- The function `initReaders` (main.cpp 288-317). -/
def initReaders (s : Sketch) : Outcome Unit :=
  if s.deviceAddr = 0xFF then .done () s
  else
    (detect s).bind fun detected s1 =>
      if detected then
        (doInit s1).bind fun ok s2 =>
          if !ok then .done () s2
          else
            (getFirmwareVersion s2).bind fun _ s3 =>
              (getMiFareVersion s3).bind fun _ s4 => .done () s4
      else .done () s1

/-- The boot sequence of `setup` (main.cpp 384-391): `initCommBus`, then `initReaders`.  The
serial console set-up before it and the menu loop entered after it are not part of the driver. -/
def setup (s : Sketch) : Outcome Unit :=
  initReaders (initCommBus s)

/-- The globals as the program starts: `deviceAddr = 0xFF` (main.cpp 39) and the
zero-initialised `tag` (main.cpp 40). -/
def powerOn (w : TwoWire) : Sketch :=
  { deviceAddr := 0xFF,
    tag := { records := 0, tagBytes := List.replicate FOBREADER_MAX_TAG_SIZE 0, size := 0, id := 0 },
    wire := w }

/-- The bytes the sketch wrote to the bus between the states `s0` and `s1`. -/
def written (s0 s1 : Sketch) : List (Nat × List Nat) :=
  s1.wire.sent.drop s0.wire.sent.length

/-- A bus on which no address acknowledges and the device answers `replies`. -/
def silentBus (replies : List (List Nat)) : TwoWire :=
  { status := fun _ => 2, replies := replies, txAddress := 0, txBuffer := [], rxBuffer := [],
    sent := [], requested := [] }

/-! ## Auxiliary definitions for the statements -/

/-- What `n` calls of `Wire.read()` deliver from a receive buffer holding `rx`. -/
def rxRead : Nat → List Nat → List Nat
  | 0, _ => []
  | n + 1, [] => 255 :: rxRead n []
  | n + 1, b :: bs => b % 256 :: rxRead n bs

/-- The sketch after one command and response exchange: `op` written to the bound address,
`quantity` bytes requested, `rx` left in the receive buffer, `rest` left of the script. -/
def afterExchange (s : Sketch) (op quantity : Nat) (rx : List Nat) (rest : List (List Nat)) :
    Sketch :=
  { s with wire := { s.wire with
      txAddress := s.deviceAddr, txBuffer := [],
      sent := s.wire.sent ++ [(s.deviceAddr, [op])],
      requested := s.wire.requested ++ [(s.deviceAddr, quantity)],
      rxBuffer := rx, replies := rest } }

/-- The response with echo GET_TAGS, one record, size byte 11, then the bytes 1..11. -/
def oversizedTagReply : List Nat := [0xFD, 1, 11, 1, 2, 3, 4, 5, 6, 7, 8, 9, 10, 11]

/-- A well-formed response: echo GET_TAGS, one record, four tag bytes, padding. -/
def goodTagReply : List Nat := [0xFD, 1, 4, 0xDE, 0xAD, 0xBE, 0xEF, 0, 0, 0, 0, 0, 0, 0]

/-- A 14-byte response whose leading byte is 0x00. -/
def staleTagReply : List Nat := [0x00, 1, 4, 1, 2, 3, 4, 0, 0, 0, 0, 0, 0, 0]

/-- A bus on which only address 8 acknowledges and the device answers `replies`. -/
def busWithReader (replies : List (List Nat)) : TwoWire :=
  { silentBus replies with status := fun a => if a = 8 then 0 else 2 }

/-- The replies of a reader through one boot: probe, init, firmware preamble, firmware
payload "1.0", peripheral version. -/
def bootReplies : List (List Nat) :=
  [[0xDA], [0xFB], [0xFC, 3], [0xFC, 3, 49, 46, 48], [0xDB, 0x92]]

/-- The sketch after discovery on a bus with a reader at address 8: bound to address 8, the
reader about to answer `replies`. -/
def bootedSketch (replies : List (List Nat)) : Sketch :=
  initCommBus (powerOn (busWithReader replies))

/-- The same sketch state after the reader has been taken off the bus: no address
acknowledges and nothing answers. -/
def unplugged (s : Sketch) : Sketch :=
  { s with wire := { s.wire with status := fun _ => 2, replies := [] } }

/-- The state `s1` is bound to the same address as `s`, and its transmission log continues
the log of `s`. -/
def Extends (s : Sketch) (s1 : Sketch) : Prop :=
  s1.deviceAddr = s.deviceAddr ∧ ∃ l, s1.wire.sent = s.wire.sent ++ l

/-- Successive calls of `isNewTagPresent`, `n` of them, with no other driver call in between. -/
def pollPresence : Nat → Sketch → Outcome Unit
  | 0, s => .done () s
  | n + 1, s => (isNewTagPresent s).bind fun _ s1 => pollPresence n s1

/-- The state `s1` has the Tag Record of `s`. -/
def KeepsTag (s : Sketch) (s1 : Sketch) : Prop :=
  s1.tag = s.tag

/-- A bus on which the addresses 8 and 32 acknowledge. -/
def busWithTwoResponders : TwoWire :=
  { silentBus [] with status := fun a => if a = 8 ∨ a = 32 then 0 else 2 }

/-! ## Transport lemmas -/

theorem toByte_natCast (b : Nat) : toByte (b : Int) = b % 256 := by
  unfold toByte
  omega

theorem toByte_neg_one : toByte (-1) = 255 := by decide

theorem readLoop_snd (n : Nat) (w : TwoWire) :
    (readLoop n w).2 = { w with rxBuffer := w.rxBuffer.drop n } := by
  induction n generalizing w with
  | zero => simp [readLoop]
  | succ n ih =>
    rw [readLoop, ih]
    cases h : w.rxBuffer with
    | nil => simp [TwoWire.read, h]
    | cons b bs => simp [TwoWire.read, h]

theorem available_lt_one (w : TwoWire) : w.available < 1 ↔ w.rxBuffer = [] := by
  unfold TwoWire.available
  cases w.rxBuffer with
  | nil => simp
  | cons b t => simp

theorem writeByte_eq (b : Nat) (s : Sketch) :
    writeByte b s =
      { s with wire := { s.wire with
          txAddress := s.deviceAddr, txBuffer := [],
          sent := s.wire.sent ++ [(s.deviceAddr, [b % 256])] } } := by
  simp [writeByte, TwoWire.beginTransmission, TwoWire.write, TwoWire.endTransmission]

theorem readBytes_state (len : Nat) (s : Sketch) :
    (readBytes len s).state =
      { s with wire := { s.wire with
          requested := s.wire.requested ++ [(s.deviceAddr, len % 256)],
          rxBuffer := (s.wire.replies.headD []).drop len,
          replies := s.wire.replies.tail } } := by
  unfold readBytes
  rcases hr : s.wire.replies with _ | ⟨_ | ⟨b, t⟩, rest⟩ <;>
    simp [TwoWire.requestFrom, available_lt_one, hr, Outcome.state, readLoop_snd]

theorem readBytes_cons (len : Nat) (s : Sketch) (b : Nat) (t : List Nat) (rest : List (List Nat))
    (h : s.wire.replies = (b :: t) :: rest) :
    readBytes len s =
      .done (readLoop len (s.wire.requestFrom s.deviceAddr (len % 256))).1
        { s with wire := { s.wire with
            requested := s.wire.requested ++ [(s.deviceAddr, len % 256)],
            rxBuffer := (b :: t).drop len,
            replies := rest } } := by
  unfold readBytes
  simp [TwoWire.requestFrom, available_lt_one, h, readLoop_snd]

theorem readByte_state (s : Sketch) :
    (readByte s).state =
      { s with wire := { s.wire with
          requested := s.wire.requested ++ [(s.deviceAddr, 1)],
          rxBuffer := (s.wire.replies.headD []).drop 1,
          replies := s.wire.replies.tail } } := by
  unfold readByte
  rcases hr : s.wire.replies with _ | ⟨_ | ⟨b, t⟩, rest⟩ <;>
    simp [TwoWire.requestFrom, available_lt_one, TwoWire.read, hr, Outcome.state]

theorem readByte_cons (s : Sketch) (b : Nat) (t : List Nat) (rest : List (List Nat))
    (h : s.wire.replies = (b :: t) :: rest) :
    readByte s =
      .done (b % 256)
        { s with wire := { s.wire with
            requested := s.wire.requested ++ [(s.deviceAddr, 1)],
            rxBuffer := t,
            replies := rest } } := by
  unfold readByte
  simp [TwoWire.requestFrom, available_lt_one, TwoWire.read, h, toByte_natCast]

theorem readLoop_fst (n : Nat) (w : TwoWire) : (readLoop n w).1 = rxRead n w.rxBuffer := by
  induction n generalizing w with
  | zero => simp [readLoop, rxRead]
  | succ n ih =>
    rw [readLoop]
    cases h : w.rxBuffer with
    | nil => simp [ih, TwoWire.read, h, rxRead, toByte_neg_one]
    | cons b bs => simp [ih, TwoWire.read, h, rxRead, toByte_natCast]

theorem rxRead_exact (r : List Nat) (hb : ∀ b ∈ r, b < 256) : rxRead r.length r = r := by
  induction r with
  | nil => simp [rxRead]
  | cons b bs ih =>
    have hlt : b < 256 := hb b (by simp)
    simp [rxRead, Nat.mod_eq_of_lt hlt, ih (fun c hc => hb c (by simp [hc]))]

theorem exchange_cons (op len : Nat) (s : Sketch) (b : Nat) (t : List Nat)
    (rest : List (List Nat)) (h : s.wire.replies = (b :: t) :: rest) :
    readBytes len (writeByte op s) =
      .done (rxRead len (b :: t)) (afterExchange s (op % 256) (len % 256) ((b :: t).drop len) rest) := by
  rw [readBytes_cons len _ b t rest (by simp [writeByte_eq, h]), readLoop_fst]
  simp [writeByte_eq, afterExchange, TwoWire.requestFrom, h]

theorem exchange1_cons (op : Nat) (s : Sketch) (b : Nat) (t : List Nat)
    (rest : List (List Nat)) (h : s.wire.replies = (b :: t) :: rest) :
    readByte (writeByte op s) = .done (b % 256) (afterExchange s (op % 256) 1 t rest) := by
  rw [readByte_cons _ b t rest (by simp [writeByte_eq, h])]
  simp [writeByte_eq, afterExchange]

theorem exchange1_blocked (op : Nat) (s : Sketch) (h : s.wire.replies.headD [] = []) :
    readByte (writeByte op s) = .blocked (afterExchange s (op % 256) 1 [] s.wire.replies.tail) := by
  unfold readByte
  rcases hr : s.wire.replies with _ | ⟨_ | ⟨b, t⟩, rest⟩
  · simp [writeByte_eq, afterExchange, TwoWire.requestFrom, available_lt_one, hr]
  · simp [writeByte_eq, afterExchange, TwoWire.requestFrom, available_lt_one, hr]
  · simp [hr] at h

theorem written_afterExchange (s : Sketch) (op q : Nat) (rx : List Nat) (rest : List (List Nat)) :
    written s (afterExchange s op q rx rest) = [(s.deviceAddr, [op])] := by
  simp [written, afterExchange]

theorem length_fourteen (r : List Nat) (h : r.length = 14) :
    ∃ b0 b1 b2 b3 b4 b5 b6 b7 b8 b9 b10 b11 b12 b13,
      r = [b0, b1, b2, b3, b4, b5, b6, b7, b8, b9, b10, b11, b12, b13] := by
  rcases r with _ | ⟨b0, _ | ⟨b1, _ | ⟨b2, _ | ⟨b3, _ | ⟨b4, _ | ⟨b5, _ | ⟨b6, _ | ⟨b7, _ | ⟨b8,
    _ | ⟨b9, _ | ⟨b10, _ | ⟨b11, _ | ⟨b12, _ | ⟨b13, _ | ⟨b14, r⟩⟩⟩⟩⟩⟩⟩⟩⟩⟩⟩⟩⟩⟩⟩ <;>
    simp at h
  exact ⟨b0, b1, b2, b3, b4, b5, b6, b7, b8, b9, b10, b11, b12, b13, rfl⟩

theorem appendVersionChars_eq (val : List Nat) (n i : Nat) (result : String)
    (h : i + n ≤ val.length) :
    appendVersionChars val n i result =
      ⟨result.data ++ (((val.drop i).take n).filter (· ≠ 0)).map Char.ofNat⟩ := by
  induction n generalizing i result with
  | zero => simp [appendVersionChars]
  | succ n ih =>
    have hi : i < val.length := by omega
    have hd : val.drop i = val[i] :: val.drop (i + 1) := List.drop_eq_getElem_cons hi
    have hg : val.getD i 0 = val[i] := by simp [List.getD, List.getElem?_eq_getElem hi]
    rw [appendVersionChars, ih (i + 1) _ (by omega), hg, hd, List.take_succ_cons,
      List.filter_cons]
    by_cases hz : val[i] = 0
    · simp [hz]
    · simp [hz, String.push]

theorem written_eq (s0 s1 : Sketch) (l : List (Nat × List Nat))
    (h : s1.wire.sent = s0.wire.sent ++ l) : written s0 s1 = l := by
  simp [written, h]

theorem scanAddress_status (s : Sketch) (a : Nat) :
    (scanAddress s a).wire.status = s.wire.status := by
  simp only [scanAddress]
  split <;> simp [TwoWire.beginTransmission, TwoWire.endTransmission]

theorem scanAddress_silent (s : Sketch) (a : Nat) (h : s.wire.status a ≠ 0) :
    (scanAddress s a).deviceAddr = s.deviceAddr := by
  unfold scanAddress
  simp [TwoWire.beginTransmission, TwoWire.endTransmission, h]

theorem scan_silent (l : List Nat) (s : Sketch) (h : ∀ a ∈ l, s.wire.status a ≠ 0) :
    (l.foldl scanAddress s).deviceAddr = s.deviceAddr := by
  induction l generalizing s with
  | nil => rfl
  | cons a l ih =>
    rw [List.foldl_cons, ih, scanAddress_silent s a (h a (by simp))]
    intro c hc
    rw [scanAddress_status]
    exact h c (by simp [hc])

theorem initCommBus_silent (s : Sketch) (h : ∀ a, a < 127 → s.wire.status a ≠ 0) :
    (initCommBus s).deviceAddr = s.deviceAddr := by
  unfold initCommBus
  rw [scan_silent]
  intro a ha
  exact h a (List.mem_range.mp ha)

theorem copyTagBytes_frame (response : List Nat) (n i : Nat) (s : Sketch) :
    (copyTagBytes response n i s).state.wire = s.wire ∧
    (copyTagBytes response n i s).state.deviceAddr = s.deviceAddr := by
  induction n generalizing i s with
  | zero => simp [copyTagBytes, Outcome.state]
  | succ n ih =>
    unfold copyTagBytes
    split
    · rw [(ih _ _).1, (ih _ _).2]
      simp
    · simp [Outcome.state]

theorem bind_done {α β : Type} (a : α) (s : Sketch) (f : α → Sketch → Outcome β) :
    (Outcome.done a s).bind f = f a s := rfl

theorem bind_blocked {α β : Type} (s : Sketch) (f : α → Sketch → Outcome β) :
    (Outcome.blocked s : Outcome α).bind f = .blocked s := rfl

theorem bind_fault {α β : Type} (s : Sketch) (f : α → Sketch → Outcome β) :
    (Outcome.fault s : Outcome α).bind f = .fault s := rfl

theorem state_bind_done {α β : Type} (o : Outcome α) (f : α → β) :
    (o.bind fun a s => .done (f a) s).state = o.state := by
  cases o <;> rfl

theorem exchange_sent (op len : Nat) (s : Sketch) :
    (readBytes len (writeByte op s)).state.wire.sent = s.wire.sent ++ [(s.deviceAddr, [op % 256])] ∧
    (readBytes len (writeByte op s)).state.deviceAddr = s.deviceAddr := by
  simp [readBytes_state, writeByte_eq]

theorem selfTest_written (s : Sketch) :
    written s (selfTest s).state = [(s.deviceAddr, [FOBREADER_SELF_TEST])] := by
  apply written_eq
  unfold selfTest
  cases h : readBytes FOBREADER_SELF_TEST_SIZE (writeByte FOBREADER_SELF_TEST s) <;>
    have hs := (exchange_sent FOBREADER_SELF_TEST FOBREADER_SELF_TEST_SIZE s).1 <;>
    rw [h] at hs <;> simp only [Outcome.bind] <;> (try split) <;>
    simpa [Outcome.state, FOBREADER_SELF_TEST] using hs

theorem isNewTagPresent_written (s : Sketch) :
    written s (isNewTagPresent s).state = [(s.deviceAddr, [FOBREADER_GET_AVAILABLE])] := by
  apply written_eq
  unfold isNewTagPresent
  cases h : readBytes FOBREADER_TAG_PRESENCE_SIZE (writeByte FOBREADER_GET_AVAILABLE s) <;>
    have hs := (exchange_sent FOBREADER_GET_AVAILABLE FOBREADER_TAG_PRESENCE_SIZE s).1 <;>
    rw [h] at hs <;> simp only [Outcome.bind] <;> (try split) <;>
    simpa [Outcome.state, FOBREADER_GET_AVAILABLE] using hs

theorem getTagData_written (s : Sketch) :
    written s (getTagData s).state = [(s.deviceAddr, [FOBREADER_GET_TAGS])] := by
  apply written_eq
  unfold getTagData
  cases h : readBytes FOBREADER_TAG_DATA_SIZE (writeByte FOBREADER_GET_TAGS s) <;>
    have hs := (exchange_sent FOBREADER_GET_TAGS FOBREADER_TAG_DATA_SIZE s).1 <;>
    rw [h] at hs <;> simp only [bind_done, bind_blocked, bind_fault] <;> (try split) <;>
    (try rw [state_bind_done, (copyTagBytes_frame _ _ _ _).1]) <;>
    simpa [Outcome.state, FOBREADER_GET_TAGS, clearTag] using hs

theorem detect_sent (s : Sketch) :
    (detect s).state.wire.sent = s.wire.sent ++ [(s.deviceAddr, [FOBREADER_DETECT])] ∧
    (detect s).state.deviceAddr = s.deviceAddr := by
  unfold detect
  rw [state_bind_done]
  simp [readByte_state, writeByte_eq, FOBREADER_DETECT]

theorem detect_true_iff (s : Sketch) :
    (detect s).value? = some true ↔
      ∃ b t rest, s.wire.replies = (b :: t) :: rest ∧ b % 256 = FOBREADER_DETECT_ACK := by
  unfold detect
  rcases hr : s.wire.replies with _ | ⟨_ | ⟨b, t⟩, rest⟩
  · simp [exchange1_blocked _ s (by simp [hr]), bind_blocked, Outcome.value?]
  · simp [exchange1_blocked _ s (by simp [hr]), bind_blocked, Outcome.value?]
  · simp [exchange1_cons _ s b t rest hr, bind_done, Outcome.value?]

theorem Extends.refl (s : Sketch) : Extends s s := ⟨rfl, [], by simp⟩

theorem Extends.trans {a b c : Sketch} (h1 : Extends a b) (h2 : Extends b c) : Extends a c := by
  obtain ⟨ha, l1, hl1⟩ := h1
  obtain ⟨hb, l2, hl2⟩ := h2
  exact ⟨by rw [hb, ha], l1 ++ l2, by rw [hl2, hl1, List.append_assoc]⟩

theorem extends_bind {α β : Type} (s : Sketch) (o : Outcome α) (f : α → Sketch → Outcome β)
    (h1 : Extends s o.state) (h2 : ∀ a s1, Extends s1 (f a s1).state) :
    Extends s (o.bind f).state := by
  cases o with
  | done a s1 => exact Extends.trans h1 (h2 a s1)
  | blocked s1 => exact h1
  | fault s1 => exact h1

theorem extends_exchange (op len : Nat) (s : Sketch) :
    Extends s (readBytes len (writeByte op s)).state :=
  ⟨(exchange_sent op len s).2, _, (exchange_sent op len s).1⟩

theorem extends_getMiFareVersion (s : Sketch) : Extends s (getMiFareVersion s).state := by
  unfold getMiFareVersion
  apply extends_bind _ _ _ (extends_exchange _ _ _)
  intro a s1
  split <;> exact Extends.refl _

theorem extends_getFirmwareVersion (s : Sketch) : Extends s (getFirmwareVersion s).state := by
  unfold getFirmwareVersion
  apply extends_bind _ _ _ (extends_exchange _ _ _)
  intro a s1
  split
  · apply extends_bind _ _ _ (extends_exchange _ _ _)
    intro a s2
    exact Extends.refl _
  · exact Extends.refl _


theorem doInit_sent (s : Sketch) :
    (doInit s).state.wire.sent = s.wire.sent ++ [(s.deviceAddr, [FOBREADER_INIT])] ∧
    (doInit s).state.deviceAddr = s.deviceAddr := by
  unfold doInit
  rw [state_bind_done]
  simp [readByte_state, writeByte_eq, FOBREADER_INIT]

theorem initReaders_tail_sent (s1 : Sketch) :
    ∃ more,
      ((doInit s1).bind fun ok s2 =>
        if !ok then .done () s2
        else
          (getFirmwareVersion s2).bind fun _ s3 =>
            (getMiFareVersion s3).bind fun _ s4 => .done () s4).state.wire.sent
        = s1.wire.sent ++ (s1.deviceAddr, [FOBREADER_INIT]) :: more := by
  have hs := doInit_sent s1
  cases h : doInit s1 with
  | done ok s2 =>
    rw [h] at hs
    simp only [Outcome.state] at hs
    rw [bind_done]
    have hx : Extends s2
        (if !ok then Outcome.done () s2
          else (getFirmwareVersion s2).bind fun _ s3 =>
            (getMiFareVersion s3).bind fun _ s4 => Outcome.done () s4).state := by
      split
      · exact Extends.refl _
      · apply extends_bind _ _ _ (extends_getFirmwareVersion _)
        intro _ s3
        apply extends_bind _ _ _ (extends_getMiFareVersion _)
        intro _ s4
        exact Extends.refl _
    obtain ⟨_, l, hl⟩ := hx
    exact ⟨l, by rw [hl, hs.1]; simp⟩
  | blocked s2 =>
    rw [h] at hs
    exact ⟨[], by simpa [bind_blocked, Outcome.state] using hs.1⟩
  | fault s2 =>
    rw [h] at hs
    exact ⟨[], by simpa [bind_fault, Outcome.state] using hs.1⟩

theorem copyTagBytes_overrun (response : List Nat) (n i : Nat) (s : Sketch)
    (hi : i ≤ FOBREADER_MAX_TAG_SIZE) (hn : FOBREADER_MAX_TAG_SIZE < i + n) :
    (copyTagBytes response n i s).isFault = true ∧
    (copyTagBytes response n i s).state.tag.id = s.tag.id ∧
    (copyTagBytes response n i s).state.tag.size = s.tag.size := by
  simp only [FOBREADER_MAX_TAG_SIZE] at hi hn
  induction n generalizing i s with
  | zero => omega
  | succ n ih =>
    unfold copyTagBytes
    simp only [FOBREADER_MAX_TAG_SIZE]
    split
    · have := ih (i + 1)
        { s with tag := { s.tag with
            tagBytes := s.tag.tagBytes.set i (response.getD (i + 3) 0) } } (by omega) (by omega)
      simpa using this
    · simp [Outcome.isFault, Outcome.state]

theorem isFault_bind_done {α β : Type} (o : Outcome α) (f : α → β) :
    (o.bind fun a s => .done (f a) s).isFault = o.isFault := by
  cases o <;> rfl

theorem value_of_isFault {α : Type} (o : Outcome α) (h : o.isFault = true) : o.value? = none := by
  cases o <;> simp_all [Outcome.isFault, Outcome.value?]

theorem xlateMiFareVersion_unmapped (version : Nat)
    (h : version ∉ [0x88, 0x90, 0x91, 0x92, 0x12]) : xlateMiFareVersion version = "unknown" := by
  simp only [List.mem_cons, List.mem_singleton, List.not_mem_nil, or_false, not_or] at h
  unfold xlateMiFareVersion
  split <;> simp_all

theorem exchange_state (op len : Nat) (s : Sketch) :
    (readBytes len (writeByte op s)).state =
      afterExchange s (op % 256) (len % 256) ((s.wire.replies.headD []).drop len)
        s.wire.replies.tail := by
  simp [readBytes_state, writeByte_eq, afterExchange]

theorem exchange1_state (op : Nat) (s : Sketch) :
    (readByte (writeByte op s)).state =
      afterExchange s (op % 256) 1 ((s.wire.replies.headD []).drop 1) s.wire.replies.tail := by
  simp [readByte_state, writeByte_eq, afterExchange]

theorem state_bind_frame {α β : Type} (o : Outcome α) (f : α → Sketch → Outcome β)
    (h : ∀ a s1, (f a s1).state = s1) : (o.bind f).state = o.state := by
  cases o with
  | done a s => exact h a s
  | blocked s => rfl
  | fault s => rfl

theorem selfTest_state (s : Sketch) :
    (selfTest s).state =
      afterExchange s FOBREADER_SELF_TEST FOBREADER_SELF_TEST_SIZE
        ((s.wire.replies.headD []).drop FOBREADER_SELF_TEST_SIZE) s.wire.replies.tail := by
  unfold selfTest
  rw [state_bind_frame _ _ (by intro a s1; split <;> rfl), exchange_state]
  rfl

theorem isNewTagPresent_state (s : Sketch) :
    (isNewTagPresent s).state =
      afterExchange s FOBREADER_GET_AVAILABLE FOBREADER_TAG_PRESENCE_SIZE
        ((s.wire.replies.headD []).drop FOBREADER_TAG_PRESENCE_SIZE) s.wire.replies.tail := by
  unfold isNewTagPresent
  rw [state_bind_frame _ _ (by intro a s1; split <;> rfl), exchange_state]
  rfl

theorem getMiFareVersion_state (s : Sketch) :
    (getMiFareVersion s).state =
      afterExchange s FOBREADER_MIFARE_VERSION FOBREADER_MIFARE_VER_SIZE
        ((s.wire.replies.headD []).drop FOBREADER_MIFARE_VER_SIZE) s.wire.replies.tail := by
  unfold getMiFareVersion
  rw [state_bind_frame _ _ (by intro a s1; split <;> rfl), exchange_state]
  rfl

theorem detect_state (s : Sketch) :
    (detect s).state =
      afterExchange s FOBREADER_DETECT 1 ((s.wire.replies.headD []).drop 1)
        s.wire.replies.tail := by
  unfold detect
  rw [state_bind_done, exchange1_state]
  rfl

theorem doInit_state (s : Sketch) :
    (doInit s).state =
      afterExchange s FOBREADER_INIT 1 ((s.wire.replies.headD []).drop 1)
        s.wire.replies.tail := by
  unfold doInit
  rw [state_bind_done, exchange1_state]
  rfl

theorem keepsTag_bind {α β : Type} (s : Sketch) (o : Outcome α) (f : α → Sketch → Outcome β)
    (h1 : KeepsTag s o.state) (h2 : ∀ a s1, KeepsTag s1 (f a s1).state) :
    KeepsTag s (o.bind f).state := by
  cases o with
  | done a s1 => exact (h2 a s1).trans h1
  | blocked s1 => exact h1
  | fault s1 => exact h1

theorem keepsTag_exchange (op len : Nat) (s : Sketch) :
    KeepsTag s (readBytes len (writeByte op s)).state := by
  rw [exchange_state]; rfl

theorem keepsTag_detect (s : Sketch) : KeepsTag s (detect s).state := by
  rw [detect_state]; rfl

theorem keepsTag_doInit (s : Sketch) : KeepsTag s (doInit s).state := by
  rw [doInit_state]; rfl

theorem keepsTag_isNewTagPresent (s : Sketch) : KeepsTag s (isNewTagPresent s).state := by
  rw [isNewTagPresent_state]; rfl

theorem keepsTag_getMiFareVersion (s : Sketch) : KeepsTag s (getMiFareVersion s).state := by
  rw [getMiFareVersion_state]; rfl

theorem keepsTag_getFirmwareVersion (s : Sketch) : KeepsTag s (getFirmwareVersion s).state := by
  unfold getFirmwareVersion
  apply keepsTag_bind _ _ _ (keepsTag_exchange _ _ _)
  intro a s1
  split
  · apply keepsTag_bind _ _ _ (keepsTag_exchange _ _ _)
    intro _ s2
    rfl
  · rfl

theorem keepsTag_initReaders (s : Sketch) : KeepsTag s (initReaders s).state := by
  unfold initReaders
  split
  · rfl
  · apply keepsTag_bind _ _ _ (keepsTag_detect _)
    intro ok s1
    split
    · apply keepsTag_bind _ _ _ (keepsTag_doInit _)
      intro ok2 s2
      split
      · rfl
      · apply keepsTag_bind _ _ _ (keepsTag_getFirmwareVersion _)
        intro _ s3
        apply keepsTag_bind _ _ _ (keepsTag_getMiFareVersion _)
        intro _ s4
        rfl
    · rfl

theorem scanAddress_tag (s : Sketch) (a : Nat) : (scanAddress s a).tag = s.tag := by
  simp only [scanAddress]
  split <;> rfl

theorem scan_tag (l : List Nat) (s : Sketch) : (l.foldl scanAddress s).tag = s.tag := by
  induction l generalizing s with
  | nil => rfl
  | cons a l ih => rw [List.foldl_cons, ih, scanAddress_tag]

theorem scan_status (l : List Nat) (s : Sketch) :
    (l.foldl scanAddress s).wire.status = s.wire.status := by
  induction l generalizing s with
  | nil => rfl
  | cons a l ih => rw [List.foldl_cons, ih, scanAddress_status]

theorem initCommBus_tag (s : Sketch) : (initCommBus s).tag = s.tag := by
  unfold initCommBus
  rw [scan_tag]

theorem scanAddress_ack (s : Sketch) (a : Nat) (h : s.wire.status a = 0) :
    (scanAddress s a).deviceAddr = a := by
  simp [scanAddress, TwoWire.beginTransmission, TwoWire.endTransmission, h]

theorem initCommBus_last_responder (s : Sketch) (a : Nat) (ha : a < 127)
    (hack : s.wire.status a = 0) (hlast : ∀ b, a < b → b < 127 → s.wire.status b ≠ 0) :
    (initCommBus s).deviceAddr = a := by
  unfold initCommBus
  have hsplit : List.range 127 = List.range a ++ [a] ++ (List.range (126 - a)).map (a + 1 + ·) := by
    rw [← List.range_succ, ← List.range_add]
    congr 1
    omega
  rw [hsplit, List.foldl_append, List.foldl_append, scan_silent]
  · rw [List.foldl_cons, List.foldl_nil]
    apply scanAddress_ack
    rw [scan_status]
    exact hack
  · intro c hc
    rw [List.foldl_cons, List.foldl_nil, scanAddress_status, scan_status]
    obtain ⟨k, hk, rfl⟩ := List.mem_map.mp hc
    have hk2 := List.mem_range.mp hk
    exact hlast _ (by omega) (by omega)

theorem getTagData_requested (s : Sketch) :
    (getTagData s).state.wire.requested =
      s.wire.requested ++ [(s.deviceAddr, FOBREADER_TAG_DATA_SIZE)] := by
  unfold getTagData
  have hs := exchange_state FOBREADER_GET_TAGS FOBREADER_TAG_DATA_SIZE s
  cases h : readBytes FOBREADER_TAG_DATA_SIZE (writeByte FOBREADER_GET_TAGS s) <;>
    rw [h] at hs <;> simp only [bind_done, bind_blocked, bind_fault] <;> (try split) <;>
    (try rw [state_bind_done, (copyTagBytes_frame _ _ _ _).1]) <;>
    simp only [Outcome.state] at hs ⊢ <;> simp [hs, afterExchange, clearTag, FOBREADER_TAG_DATA_SIZE]

theorem getFirmwareVersion_traffic (s : Sketch) :
    (∀ e ∈ written s (getFirmwareVersion s).state, e = (s.deviceAddr, [FOBREADER_GET_FIRMWARE])) ∧
    (written s (getFirmwareVersion s).state).head? = some (s.deviceAddr, [FOBREADER_GET_FIRMWARE]) ∧
    ∃ more, (getFirmwareVersion s).state.wire.requested =
      s.wire.requested ++ (s.deviceAddr, FOBREADER_FW_PREAMBLE_SIZE) :: more := by
  unfold getFirmwareVersion
  have hs := exchange_state FOBREADER_GET_FIRMWARE FOBREADER_FW_PREAMBLE_SIZE s
  cases h : readBytes FOBREADER_FW_PREAMBLE_SIZE (writeByte FOBREADER_GET_FIRMWARE s) with
  | done a s1 =>
    rw [h] at hs
    simp only [Outcome.state] at hs
    rw [bind_done]
    split
    · rw [state_bind_done, exchange_state, hs]
      simp [written, afterExchange, FOBREADER_GET_FIRMWARE, FOBREADER_FW_PREAMBLE_SIZE]
    · simp [Outcome.state, hs, written, afterExchange, FOBREADER_GET_FIRMWARE,
        FOBREADER_FW_PREAMBLE_SIZE]
  | blocked s1 =>
    rw [h] at hs
    simp only [Outcome.state] at hs
    simp [bind_blocked, Outcome.state, hs, written, afterExchange, FOBREADER_GET_FIRMWARE,
      FOBREADER_FW_PREAMBLE_SIZE]
  | fault s1 =>
    rw [h] at hs
    simp only [Outcome.state] at hs
    simp [bind_fault, Outcome.state, hs, written, afterExchange, FOBREADER_GET_FIRMWARE,
      FOBREADER_FW_PREAMBLE_SIZE]

/-! ## The claims -/

/-- C1 (the code on every oversized response): for every 14-byte response with echo GET_TAGS
and size byte above 10, `getTagData` does not return false.  It has set `id = 0x00` and
`size` to the size byte and runs into a store outside `tagBytes`: the code has no bound check. -/
theorem C1_getTagData_oversized_size (s : Sketch) (resp : List Nat) (rest : List (List Nat))
    (hr : s.wire.replies = resp :: rest) (hlen : resp.length = 14) (hb : ∀ b ∈ resp, b < 256)
    (hecho : resp.getD 0 0 = FOBREADER_GET_TAGS)
    (hsize : FOBREADER_MAX_TAG_SIZE < resp.getD 2 0) :
    (getTagData s).value? ≠ some false ∧
    (getTagData s).isFault = true ∧
    (getTagData s).state.tag.id = 0x00 ∧
    (getTagData s).state.tag.size = resp.getD 2 0 := by
  obtain ⟨c, t, rfl⟩ : ∃ c t, resp = c :: t := by
    cases resp with
    | nil => simp at hlen
    | cons c t => exact ⟨c, t, rfl⟩
  have hx := exchange_cons FOBREADER_GET_TAGS FOBREADER_TAG_DATA_SIZE s c t rest hr
  have hrx : rxRead FOBREADER_TAG_DATA_SIZE (c :: t) = c :: t := by
    have := rxRead_exact (c :: t) hb
    rwa [hlen] at this
  unfold getTagData
  rw [hx, bind_done, hrx, if_pos hecho]
  have key : ∀ S : Sketch, S.tag.size = (c :: t).getD 2 0 → S.tag.id = 0 →
      ((copyTagBytes (c :: t) S.tag.size 0 S).bind
        fun (_ : Unit) s6 => Outcome.done true s6).value? ≠ some false ∧
      ((copyTagBytes (c :: t) S.tag.size 0 S).bind
        fun (_ : Unit) s6 => Outcome.done true s6).isFault = true ∧
      ((copyTagBytes (c :: t) S.tag.size 0 S).bind
        fun (_ : Unit) s6 => Outcome.done true s6).state.tag.id = 0x00 ∧
      ((copyTagBytes (c :: t) S.tag.size 0 S).bind
        fun (_ : Unit) s6 => Outcome.done true s6).state.tag.size = (c :: t).getD 2 0 := by
    intro S hS hid
    have ho := copyTagBytes_overrun (c :: t) S.tag.size 0 S (Nat.zero_le _)
      (by rw [hS, Nat.zero_add]; exact hsize)
    have hf : ((copyTagBytes (c :: t) S.tag.size 0 S).bind
        fun (_ : Unit) s6 => Outcome.done true s6).isFault = true := by
      rw [isFault_bind_done]; exact ho.1
    refine ⟨?_, hf, ?_, ?_⟩
    · rw [value_of_isFault _ hf]
      simp
    · rw [state_bind_done, ho.2.1, hid]
    · rw [state_bind_done, ho.2.2, hS]
  exact key _ rfl rfl

/-- C1 at the failing input, size byte 11 after boot: `id` becomes 0x00, all ten
payload cells are filled and the store to `tagBytes[10]` is reached. -/
theorem C1_getTagData_oversized_size_witness :
    oversizedTagReply.length = 14 ∧
    (∀ b ∈ oversizedTagReply, b < 256) ∧
    oversizedTagReply.getD 0 0 = FOBREADER_GET_TAGS ∧
    FOBREADER_MAX_TAG_SIZE < oversizedTagReply.getD 2 0 ∧
    ((getTagData (bootedSketch [oversizedTagReply])).value? ≠ some false ∧
     (getTagData (bootedSketch [oversizedTagReply])).isFault = true ∧
     (getTagData (bootedSketch [oversizedTagReply])).state.tag.id = 0x00 ∧
     (getTagData (bootedSketch [oversizedTagReply])).state.tag.size = 11) ∧
    (getTagData (bootedSketch [oversizedTagReply])).state.tag =
      { records := 1, tagBytes := [1, 2, 3, 4, 5, 6, 7, 8, 9, 10], size := 11, id := 0x00 } :=
  ⟨rfl, by decide, rfl, by decide,
   C1_getTagData_oversized_size (bootedSketch [oversizedTagReply])
     oversizedTagReply [] rfl rfl (by decide) rfl (by decide),
   by decide⟩

/-- C2 (counterexample): after a successful decode, a 14-byte response with leading byte 0x00
makes `getTagData` return false and leaves the decoded record in place, `id = 0x00` and
`size = 4`: the record is not the empty sentinel. -/
theorem C2_counterexample_tag_survives_mismatch :
    staleTagReply.length = FOBREADER_TAG_DATA_SIZE ∧
    staleTagReply.getD 0 0 ≠ FOBREADER_GET_TAGS ∧
    (getTagData (getTagData (bootedSketch [goodTagReply, staleTagReply])).state).value?
      = some false ∧
    (getTagData (getTagData (bootedSketch [goodTagReply, staleTagReply])).state).state.tag
      = { records := 1, tagBytes := [0xDE, 0xAD, 0xBE, 0xEF, 0xFF, 0xFF, 0xFF, 0xFF, 0xFF, 0xFF],
          size := 4, id := 0x00 } ∧
    (getTagData (getTagData (bootedSketch [goodTagReply, staleTagReply])).state).state.tag.id
      ≠ 0xFF := by
  decide

/-- C2 (amended): for every prior state and every response whose leading byte is not GET_TAGS,
`getTagData` returns false and the Tag Record afterwards is the prior record, unchanged. -/
theorem C2_getTagData_mismatch_keeps_tag (s : Sketch) (b : Nat) (t : List Nat)
    (rest : List (List Nat)) (hr : s.wire.replies = (b :: t) :: rest) (hb : b < 256)
    (hecho : b ≠ FOBREADER_GET_TAGS) :
    (getTagData s).value? = some false ∧ (getTagData s).state.tag = s.tag := by
  have hx := exchange_cons FOBREADER_GET_TAGS FOBREADER_TAG_DATA_SIZE s b t rest hr
  simp only [getTagData, hx]
  simp [rxRead, FOBREADER_TAG_DATA_SIZE, Nat.mod_eq_of_lt hb, hecho,
    Outcome.bind, Outcome.value?, Outcome.state, afterExchange]

/-- C2 (amended), at the record as it is after boot and a response with leading byte 0x00. -/
theorem C2_getTagData_mismatch_keeps_tag_witness :
    (getTagData (bootedSketch [staleTagReply])).value? = some false ∧
    (getTagData (bootedSketch [staleTagReply])).state.tag =
      (bootedSketch [staleTagReply]).tag :=
  C2_getTagData_mismatch_keeps_tag (bootedSketch [staleTagReply]) 0x00
    [1, 4, 1, 2, 3, 4, 0, 0, 0, 0, 0, 0, 0] [] rfl (by decide) (by decide)

/-- C3: for every prior state and every 14-byte response with echo GET_TAGS and size byte
`s <= 10`, `getTagData` returns true and the record has `id = 0x00`, `records = response[1]`,
`size = s`, `tagBytes[i] = response[3 + i]` for `i < s` and `tagBytes[i] = 0xFF` for
`s <= i < 10`; nothing of the prior record is left. -/
theorem C3_getTagData_decodes (s : Sketch) (resp : List Nat) (rest : List (List Nat))
    (hr : s.wire.replies = resp :: rest) (hlen : resp.length = 14) (hb : ∀ b ∈ resp, b < 256)
    (hecho : resp.getD 0 0 = FOBREADER_GET_TAGS)
    (hsize : resp.getD 2 0 ≤ FOBREADER_MAX_TAG_SIZE) :
    (getTagData s).value? = some true ∧
    (getTagData s).state.tag.id = 0x00 ∧
    (getTagData s).state.tag.records = resp.getD 1 0 ∧
    (getTagData s).state.tag.size = resp.getD 2 0 ∧
    (getTagData s).state.tag.tagBytes.length = FOBREADER_MAX_TAG_SIZE ∧
    (∀ i, i < resp.getD 2 0 →
      (getTagData s).state.tag.tagBytes.getD i 0 = resp.getD (3 + i) 0) ∧
    (∀ i, resp.getD 2 0 ≤ i → i < FOBREADER_MAX_TAG_SIZE →
      (getTagData s).state.tag.tagBytes.getD i 0 = 0xFF) := by
  obtain ⟨b0, b1, b2, b3, b4, b5, b6, b7, b8, b9, b10, b11, b12, b13, rfl⟩ :=
    length_fourteen resp hlen
  simp only [List.mem_cons, List.mem_singleton, forall_eq_or_imp, forall_eq, List.not_mem_nil,
    false_implies, implies_true, and_true] at hb
  obtain ⟨h0, h1, h2, h3, h4, h5, h6, h7, h8, h9, h10, h11, h12, h13⟩ := hb
  simp only [List.getD_cons_zero, List.getD_cons_succ, FOBREADER_GET_TAGS,
    FOBREADER_MAX_TAG_SIZE] at hecho hsize
  subst hecho
  have hx := exchange_cons FOBREADER_GET_TAGS FOBREADER_TAG_DATA_SIZE s _ _ rest hr
  simp only [getTagData, hx]
  simp only [rxRead, FOBREADER_TAG_DATA_SIZE, Nat.mod_eq_of_lt h1, Nat.mod_eq_of_lt h2,
    Nat.mod_eq_of_lt h3, Nat.mod_eq_of_lt h4, Nat.mod_eq_of_lt h5, Nat.mod_eq_of_lt h6,
    Nat.mod_eq_of_lt h7, Nat.mod_eq_of_lt h8, Nat.mod_eq_of_lt h9, Nat.mod_eq_of_lt h10,
    Nat.mod_eq_of_lt h11, Nat.mod_eq_of_lt h12, Nat.mod_eq_of_lt h13]
  interval_cases b2 <;>
    simp [Outcome.bind, Outcome.value?, Outcome.state, copyTagBytes, clearTag,
      FOBREADER_GET_TAGS, FOBREADER_MAX_TAG_SIZE, afterExchange, List.replicate] <;>
    (try constructor) <;> intro i hi <;> (try intro hi2) <;> interval_cases i <;> simp

/-- C3 at a response with echo GET_TAGS, one record and the four tag bytes DE AD BE EF. -/
theorem C3_getTagData_decodes_witness :
    goodTagReply.length = 14 ∧
    goodTagReply.getD 2 0 ≤ FOBREADER_MAX_TAG_SIZE ∧
    (getTagData (bootedSketch [goodTagReply])).value? = some true ∧
    (getTagData (bootedSketch [goodTagReply])).state.tag.id = 0x00 ∧
    (getTagData (bootedSketch [goodTagReply])).state.tag.size = 4 ∧
    (getTagData (bootedSketch [goodTagReply])).state.tag.tagBytes.getD 3 0 = 0xEF ∧
    (getTagData (bootedSketch [goodTagReply])).state.tag.tagBytes.getD 4 0 = 0xFF :=
  have h := C3_getTagData_decodes (bootedSketch [goodTagReply]) goodTagReply [] rfl rfl
    (by decide) rfl (by decide)
  ⟨rfl, by decide, h.1, h.2.1, h.2.2.2.1, h.2.2.2.2.2.1 3 (by decide),
    h.2.2.2.2.2.2 4 (by decide) (by decide)⟩

/-- C4 (the code at a failing input): `xlateMiFareVersion` maps 0x92 to "v2.0" and 0x88 to
"(clone)" and unmapped bytes to "unknown", but 0x12 to the misspelt "conterfeit chip", not to
"counterfeit chip". -/
theorem C4_xlateMiFareVersion_table :
    xlateMiFareVersion 0x92 = "v2.0" ∧
    xlateMiFareVersion 0x88 = "(clone)" ∧
    xlateMiFareVersion 0x12 = "conterfeit chip" ∧
    xlateMiFareVersion 0x12 ≠ "counterfeit chip" ∧
    xlateMiFareVersion 0x00 = "unknown" ∧
    xlateMiFareVersion 0xFF = "unknown" := by
  decide

/-- C5: for every first response `[GET_FIRMWARE, L]` and every second response of `L + 2`
bytes, `getFirmwareVersion` returns the characters of the second response from position 2 on,
in order, with every 0x00 byte left out. -/
theorem C5_getFirmwareVersion_skips_nulls (s : Sketch) (L : Nat) (payload : List Nat)
    (rest : List (List Nat))
    (hr : s.wire.replies = [FOBREADER_GET_FIRMWARE, L] :: payload :: rest)
    (hL : L < 256) (hlen : payload.length = L + 2) (hb : ∀ b ∈ payload, b < 256) :
    (getFirmwareVersion s).value? =
      some (String.mk (((payload.drop 2).filter (· ≠ 0)).map Char.ofNat)) := by
  obtain ⟨c, t, rfl⟩ : ∃ c t, payload = c :: t := by
    cases payload with
    | nil => simp at hlen
    | cons c t => exact ⟨c, t, rfl⟩
  have hx1 := exchange_cons FOBREADER_GET_FIRMWARE FOBREADER_FW_PREAMBLE_SIZE s _ _ _ hr
  have hrx : rxRead (L + 2) (c :: t) = c :: t := by
    have := rxRead_exact (c :: t) hb
    rwa [hlen] at this
  have htake : List.take L (List.drop 2 (c :: t)) = List.drop 2 (c :: t) := by
    apply List.take_of_length_le
    simp only [List.length_drop, hlen]
    omega
  simp only [getFirmwareVersion, hx1, Outcome.bind]
  have h0 : (rxRead FOBREADER_FW_PREAMBLE_SIZE [FOBREADER_GET_FIRMWARE, L]).getD 0 0
      = FOBREADER_GET_FIRMWARE := by
    simp [rxRead, FOBREADER_FW_PREAMBLE_SIZE, FOBREADER_GET_FIRMWARE]
  have h1 : (rxRead FOBREADER_FW_PREAMBLE_SIZE [FOBREADER_GET_FIRMWARE, L]).getD 1 0 = L := by
    simp [rxRead, FOBREADER_FW_PREAMBLE_SIZE, Nat.mod_eq_of_lt hL]
  rw [if_pos h0, h1]
  rw [exchange_cons FOBREADER_GET_FIRMWARE (L + FOBREADER_FW_PREAMBLE_SIZE) _ c t rest
    (by simp [afterExchange])]
  simp only [FOBREADER_FW_PREAMBLE_SIZE, Outcome.value?, Nat.add_sub_cancel, hrx]
  rw [appendVersionChars_eq _ _ _ _ (by rw [hlen]; omega), htake]
  simp

/-- C5 at the preamble `[0xFC, 5]` and the payload `[0xFC, 5, 'A', 0, 'B', 'C', 0]`: "ABC". -/
theorem C5_getFirmwareVersion_skips_nulls_witness :
    (getFirmwareVersion
      (bootedSketch [[0xFC, 5], [0xFC, 5, 65, 0x00, 66, 67, 0x00]])).value? = some "ABC" :=
  C5_getFirmwareVersion_skips_nulls
    (bootedSketch [[0xFC, 5], [0xFC, 5, 65, 0x00, 66, 67, 0x00]]) 5
    [0xFC, 5, 65, 0x00, 66, 67, 0x00] [] rfl (by decide) rfl (by decide)

/-- C6 (counterexample): discovery on a bus where nothing answers leaves `deviceAddr = 0xFF`,
and `selfTest` then still writes SELF_TEST to address 0xFF and does not report false (it
waits for a response for ever). -/
theorem C6_counterexample_selfTest_writes_unbound :
    (initCommBus (powerOn (silentBus []))).deviceAddr = 0xFF ∧
    written (initCommBus (powerOn (silentBus [])))
      (selfTest (initCommBus (powerOn (silentBus [])))).state
      = [(0xFF, [FOBREADER_SELF_TEST])] ∧
    (selfTest (initCommBus (powerOn (silentBus [])))).value? ≠ some false := by
  decide

/-- C6 (amended): when discovery from the power-on state finds no responding address the
session is unbound (`deviceAddr = 0xFF`), and `initReaders` then returns at once and writes
nothing; `selfTest`, `isNewTagPresent` and `getTagData` carry no such guard and each writes
its opcode to address 0xFF. -/
theorem C6_unbound_only_initReaders_guarded (w : TwoWire)
    (h : ∀ a, a < 127 → w.status a ≠ 0) :
    (initCommBus (powerOn w)).deviceAddr = 0xFF ∧
    (initReaders (initCommBus (powerOn w))).value? = some () ∧
    written (initCommBus (powerOn w)) (initReaders (initCommBus (powerOn w))).state = [] ∧
    written (initCommBus (powerOn w)) (selfTest (initCommBus (powerOn w))).state
      = [(0xFF, [FOBREADER_SELF_TEST])] ∧
    written (initCommBus (powerOn w)) (isNewTagPresent (initCommBus (powerOn w))).state
      = [(0xFF, [FOBREADER_GET_AVAILABLE])] ∧
    written (initCommBus (powerOn w)) (getTagData (initCommBus (powerOn w))).state
      = [(0xFF, [FOBREADER_GET_TAGS])] := by
  have hd : (initCommBus (powerOn w)).deviceAddr = 0xFF := by
    rw [initCommBus_silent _ (by simpa [powerOn] using h)]
    rfl
  refine ⟨hd, ?_, ?_, ?_, ?_, ?_⟩
  · simp [initReaders, hd, Outcome.value?]
  · simp [initReaders, hd, Outcome.state, written]
  · rw [selfTest_written, hd]
  · rw [isNewTagPresent_written, hd]
  · rw [getTagData_written, hd]

/-- C6 (amended) on the bus where no address acknowledges and nothing answers. -/
theorem C6_unbound_only_initReaders_guarded_witness :
    (∀ a, a < 127 → (silentBus []).status a ≠ 0) ∧
    (initCommBus (powerOn (silentBus []))).deviceAddr = 0xFF ∧
    (initReaders (initCommBus (powerOn (silentBus [])))).value? = some () ∧
    written (initCommBus (powerOn (silentBus [])))
      (initReaders (initCommBus (powerOn (silentBus [])))).state = [] ∧
    written (initCommBus (powerOn (silentBus [])))
      (selfTest (initCommBus (powerOn (silentBus [])))).state
      = [(0xFF, [FOBREADER_SELF_TEST])] ∧
    written (initCommBus (powerOn (silentBus [])))
      (isNewTagPresent (initCommBus (powerOn (silentBus [])))).state
      = [(0xFF, [FOBREADER_GET_AVAILABLE])] ∧
    written (initCommBus (powerOn (silentBus [])))
      (getTagData (initCommBus (powerOn (silentBus [])))).state
      = [(0xFF, [FOBREADER_GET_TAGS])] :=
  ⟨by intro a _; simp [silentBus],
   C6_unbound_only_initReaders_guarded (silentBus []) (by intro a _; simp [silentBus])⟩

/-- C7 (the code at a failing input): a boot binds the session to the reader at address 8; the
reader is then taken off the bus and the sketch restarted.  Discovery finds no address, yet
`deviceAddr` is still 8 afterwards and `initReaders` sends DETECT to address 8. -/
theorem C7_restart_keeps_stale_address :
    (setup (powerOn (busWithReader bootReplies))).state.deviceAddr = 8 ∧
    (∀ a, a < 127 →
      (unplugged (setup (powerOn (busWithReader bootReplies))).state).wire.status a ≠ 0) ∧
    (setup (unplugged (setup (powerOn (busWithReader bootReplies))).state)).state.deviceAddr = 8 ∧
    written (initCommBus (unplugged (setup (powerOn (busWithReader bootReplies))).state))
      (setup (unplugged (setup (powerOn (busWithReader bootReplies))).state)).state
      = [(8, [FOBREADER_DETECT])] := by
  refine ⟨by decide, ?_, by decide, by decide⟩
  intro a _
  simp [unplugged]

/-- C8: in every run of `initReaders`, a transmission carrying INIT is in the log only if
`detect` returned true, which it does exactly when the response byte was DETECT_ACK, and then
the log opens with DETECT followed by INIT; if the probe does not succeed, the run writes at
most the one DETECT, so no INIT, GET_FIRMWARE or MIFARE_VERSION command goes out. -/
theorem C8_init_only_after_ack (s : Sketch) :
    ((detect s).value? = some true ↔
      ∃ b t rest, s.wire.replies = (b :: t) :: rest ∧ b % 256 = FOBREADER_DETECT_ACK) ∧
    (∀ e ∈ written s (initReaders s).state, e.2 = [FOBREADER_INIT] →
      (detect s).value? = some true ∧
      ∃ more, written s (initReaders s).state =
        (s.deviceAddr, [FOBREADER_DETECT]) :: (s.deviceAddr, [FOBREADER_INIT]) :: more) ∧
    ((detect s).value? ≠ some true →
      written s (initReaders s).state = [] ∨
      written s (initReaders s).state = [(s.deviceAddr, [FOBREADER_DETECT])]) := by
  refine ⟨detect_true_iff s, ?_⟩
  by_cases hd : s.deviceAddr = 0xFF
  · have hw : written s (initReaders s).state = [] := by
      simp [initReaders, hd, Outcome.state, written]
    rw [hw]
    simp
  · have hds := detect_sent s
    unfold initReaders
    rw [if_neg hd]
    cases h : detect s with
    | done ok s1 =>
      rw [h] at hds
      simp only [Outcome.state] at hds
      cases ok with
      | false =>
        have hw : written s s1 = [(s.deviceAddr, [FOBREADER_DETECT])] := written_eq _ _ _ hds.1
        simp [bind_done, Outcome.state, hw, Outcome.value?, FOBREADER_DETECT, FOBREADER_INIT]
      | true =>
        obtain ⟨more, hm⟩ := initReaders_tail_sent s1
        rw [hds.1, hds.2] at hm
        simp only [bind_done, if_true, Outcome.value?]
        rw [written_eq _ _ ((s.deviceAddr, [FOBREADER_DETECT]) ::
          (s.deviceAddr, [FOBREADER_INIT]) :: more) (by rw [hm]; simp)]
        simp
    | blocked s1 =>
      rw [h] at hds
      simp only [Outcome.state] at hds
      have hw : written s s1 = [(s.deviceAddr, [FOBREADER_DETECT])] := written_eq _ _ _ hds.1
      simp [bind_blocked, Outcome.state, hw, Outcome.value?, FOBREADER_DETECT, FOBREADER_INIT]
    | fault s1 =>
      rw [h] at hds
      simp only [Outcome.state] at hds
      have hw : written s s1 = [(s.deviceAddr, [FOBREADER_DETECT])] := written_eq _ _ _ hds.1
      simp [bind_fault, Outcome.state, hw, Outcome.value?, FOBREADER_DETECT, FOBREADER_INIT]

/-- C8 on a bus with a reader at address 8 that acknowledges the probe: INIT is written. -/
theorem C8_init_only_after_ack_witness :
    (8, [FOBREADER_INIT]) ∈
      written (bootedSketch bootReplies)
        (initReaders (bootedSketch bootReplies)).state ∧
    (detect (bootedSketch bootReplies)).value? = some true :=
  ⟨by decide,
   ((C8_init_only_after_ack (bootedSketch bootReplies)).2.1
      (8, [FOBREADER_INIT]) (by decide) rfl).1⟩

/-- C9: for every single response byte `b`, `detect` returns true iff `b = DETECT_ACK` and
`doInit` returns true iff `b = INIT`; each writes its opcode once and requests one byte once
(no retry). -/
theorem C9_detect_doInit_single_byte (s : Sketch) (b : Nat) (rest : List (List Nat))
    (hr : s.wire.replies = [b] :: rest) (hb : b < 256) :
    (detect s).value? = some (b == FOBREADER_DETECT_ACK) ∧
    (doInit s).value? = some (b == FOBREADER_INIT) ∧
    written s (detect s).state = [(s.deviceAddr, [FOBREADER_DETECT])] ∧
    written s (doInit s).state = [(s.deviceAddr, [FOBREADER_INIT])] ∧
    (detect s).state.wire.requested = s.wire.requested ++ [(s.deviceAddr, 1)] ∧
    (doInit s).state.wire.requested = s.wire.requested ++ [(s.deviceAddr, 1)] := by
  simp [detect, doInit, exchange1_cons _ s b [] rest hr, Outcome.bind, Outcome.value?,
    Outcome.state, written_afterExchange, Nat.mod_eq_of_lt hb, FOBREADER_DETECT, FOBREADER_INIT]
  simp [afterExchange]

/-- C9 at the response byte DETECT_ACK: `detect` returns true and `doInit` returns false. -/
theorem C9_detect_doInit_single_byte_witness :
    (0xDA : Nat) < 256 ∧
    (detect (bootedSketch [[0xDA]])).value? = some true ∧
    (doInit (bootedSketch [[0xDA]])).value? = some false :=
  have h := C9_detect_doInit_single_byte (bootedSketch [[0xDA]]) 0xDA [] rfl (by decide)
  ⟨by decide, h.1, h.2.1⟩

/-- C10: `getFirmwareVersion` writes GET_FIRMWARE exactly twice when the first response's
leading byte is GET_FIRMWARE, and exactly once, returning the empty string, when it is any
other byte. -/
theorem C10_getFirmwareVersion_write_count (s : Sketch) (b : Nat) (t : List Nat)
    (rest : List (List Nat)) (hr : s.wire.replies = (b :: t) :: rest) (hb : b < 256) :
    (b = FOBREADER_GET_FIRMWARE →
      written s (getFirmwareVersion s).state =
        [(s.deviceAddr, [FOBREADER_GET_FIRMWARE]), (s.deviceAddr, [FOBREADER_GET_FIRMWARE])]) ∧
    (b ≠ FOBREADER_GET_FIRMWARE →
      written s (getFirmwareVersion s).state = [(s.deviceAddr, [FOBREADER_GET_FIRMWARE])] ∧
      (getFirmwareVersion s).value? = some "") := by
  have hx := exchange_cons FOBREADER_GET_FIRMWARE FOBREADER_FW_PREAMBLE_SIZE s b t rest hr
  have h0 : (rxRead FOBREADER_FW_PREAMBLE_SIZE (b :: t)).getD 0 0 = b := by
    simp [rxRead, FOBREADER_FW_PREAMBLE_SIZE, Nat.mod_eq_of_lt hb]
  unfold getFirmwareVersion
  rw [hx, bind_done, h0]
  constructor
  · intro hecho
    rw [if_pos hecho, state_bind_done]
    apply written_eq
    rw [(exchange_sent _ _ _).1]
    simp [afterExchange, FOBREADER_GET_FIRMWARE]
  · intro hecho
    rw [if_neg hecho]
    exact ⟨written_eq _ _ _ (by simp [Outcome.state, afterExchange, FOBREADER_GET_FIRMWARE]), rfl⟩

/-- C10 at the first responses `[0xFC, 1]` (two writes) and `[0x00, 1]` (one write, ""). -/
theorem C10_getFirmwareVersion_write_count_witness :
    written (bootedSketch [[0xFC, 1], [0xFC, 1, 65]])
      (getFirmwareVersion (bootedSketch [[0xFC, 1], [0xFC, 1, 65]])).state =
        [(8, [FOBREADER_GET_FIRMWARE]), (8, [FOBREADER_GET_FIRMWARE])] ∧
    written (bootedSketch [[0x00, 1]])
      (getFirmwareVersion (bootedSketch [[0x00, 1]])).state =
        [(8, [FOBREADER_GET_FIRMWARE])] ∧
    (getFirmwareVersion (bootedSketch [[0x00, 1]])).value? = some "" :=
  ⟨(C10_getFirmwareVersion_write_count (bootedSketch [[0xFC, 1], [0xFC, 1, 65]])
      0xFC [1] [[0xFC, 1, 65]] rfl (by decide)).1 rfl,
   (C10_getFirmwareVersion_write_count (bootedSketch [[0x00, 1]])
      0x00 [1] [] rfl (by decide)).2 (by decide)⟩

/-- C11: for every 2-byte response `[e, f]`, `selfTest` returns false if `e` is not SELF_TEST
and otherwise returns true iff `f` is not 0. -/
theorem C11_selfTest_result (s : Sketch) (e f : Nat) (rest : List (List Nat))
    (hr : s.wire.replies = [e, f] :: rest) (he : e < 256) (hf : f < 256) :
    (e ≠ FOBREADER_SELF_TEST → (selfTest s).value? = some false) ∧
    (e = FOBREADER_SELF_TEST → (selfTest s).value? = some (decide (f ≠ 0))) := by
  have hx := exchange_cons FOBREADER_SELF_TEST FOBREADER_SELF_TEST_SIZE s e [f] rest hr
  have h0 : (rxRead FOBREADER_SELF_TEST_SIZE [e, f]).getD 0 0 = e := by
    simp [rxRead, FOBREADER_SELF_TEST_SIZE, Nat.mod_eq_of_lt he]
  have h1 : (rxRead FOBREADER_SELF_TEST_SIZE [e, f]).getD 1 0 = f := by
    simp [rxRead, FOBREADER_SELF_TEST_SIZE, Nat.mod_eq_of_lt hf]
  unfold selfTest
  rw [hx, bind_done, h0, h1]
  constructor
  · intro h
    rw [if_neg h]
    rfl
  · intro h
    rw [if_pos h]
    by_cases hz : f = 0 <;> simp [Outcome.value?, hz]

/-- C12: for every 2-byte response `[e, f]`, `isNewTagPresent` returns true iff `e` is
GET_AVAILABLE and `f = 1`; a mismatching echo or any other flag value yields false. -/
theorem C12_isNewTagPresent_result (s : Sketch) (e f : Nat) (rest : List (List Nat))
    (hr : s.wire.replies = [e, f] :: rest) (he : e < 256) (hf : f < 256) :
    (isNewTagPresent s).value? = some (decide (e = FOBREADER_GET_AVAILABLE ∧ f = 1)) := by
  have hx := exchange_cons FOBREADER_GET_AVAILABLE FOBREADER_TAG_PRESENCE_SIZE s e [f] rest hr
  have h0 : (rxRead FOBREADER_TAG_PRESENCE_SIZE [e, f]).getD 0 0 = e := by
    simp [rxRead, FOBREADER_TAG_PRESENCE_SIZE, Nat.mod_eq_of_lt he]
  have h1 : (rxRead FOBREADER_TAG_PRESENCE_SIZE [e, f]).getD 1 0 = f := by
    simp [rxRead, FOBREADER_TAG_PRESENCE_SIZE, Nat.mod_eq_of_lt hf]
  unfold isNewTagPresent
  rw [hx, bind_done, h0, h1]
  by_cases h : e = FOBREADER_GET_AVAILABLE
  · rw [if_pos h]
    by_cases h1 : f = 1 <;> simp [Outcome.value?, h, h1]
  · rw [if_neg h]
    simp [Outcome.value?, h]

/-- C13: for every 2-byte response `[e, v]`, `getMiFareVersion` returns `v` if `e` is
MIFARE_VERSION and the sentinel 0xFF otherwise. -/
theorem C13_getMiFareVersion_result (s : Sketch) (e v : Nat) (rest : List (List Nat))
    (hr : s.wire.replies = [e, v] :: rest) (he : e < 256) (hv : v < 256) :
    (e = FOBREADER_MIFARE_VERSION → (getMiFareVersion s).value? = some v) ∧
    (e ≠ FOBREADER_MIFARE_VERSION → (getMiFareVersion s).value? = some 0xFF) := by
  have hx := exchange_cons FOBREADER_MIFARE_VERSION FOBREADER_MIFARE_VER_SIZE s e [v] rest hr
  have h0 : (rxRead FOBREADER_MIFARE_VER_SIZE [e, v]).getD 0 0 = e := by
    simp [rxRead, FOBREADER_MIFARE_VER_SIZE, Nat.mod_eq_of_lt he]
  have h1 : (rxRead FOBREADER_MIFARE_VER_SIZE [e, v]).getD 1 0 = v := by
    simp [rxRead, FOBREADER_MIFARE_VER_SIZE, Nat.mod_eq_of_lt hv]
  unfold getMiFareVersion
  rw [hx, bind_done, h0, h1]
  constructor
  · intro h
    rw [if_pos h]
    rfl
  · intro h
    rw [if_neg h]
    rfl


/-- C11 at the responses `[0xDC, 7]` (true), `[0xDC, 0]` (false) and `[0xDD, 7]` (false). -/
theorem C11_selfTest_result_witness :
    (0xDC : Nat) < 256 ∧ (7 : Nat) < 256 ∧
    (selfTest (bootedSketch [[0xDC, 7]])).value? = some true ∧
    (selfTest (bootedSketch [[0xDC, 0]])).value? = some false ∧
    (selfTest (bootedSketch [[0xDD, 7]])).value? = some false :=
  ⟨by decide, by decide,
   (C11_selfTest_result (bootedSketch [[0xDC, 7]]) 0xDC 7 [] rfl (by decide) (by decide)).2 rfl,
   (C11_selfTest_result (bootedSketch [[0xDC, 0]]) 0xDC 0 [] rfl (by decide) (by decide)).2 rfl,
   (C11_selfTest_result (bootedSketch [[0xDD, 7]]) 0xDD 7 [] rfl (by decide) (by decide)).1
     (by decide)⟩

/-- C12 at the responses `[0xFE, 1]` (true), `[0xFE, 2]` (false) and `[0xFD, 1]` (false). -/
theorem C12_isNewTagPresent_result_witness :
    (0xFE : Nat) < 256 ∧ (1 : Nat) < 256 ∧
    (isNewTagPresent (bootedSketch [[0xFE, 1]])).value? = some true ∧
    (isNewTagPresent (bootedSketch [[0xFE, 2]])).value? = some false ∧
    (isNewTagPresent (bootedSketch [[0xFD, 1]])).value? = some false :=
  ⟨by decide, by decide,
   C12_isNewTagPresent_result (bootedSketch [[0xFE, 1]]) 0xFE 1 [] rfl (by decide) (by decide),
   C12_isNewTagPresent_result (bootedSketch [[0xFE, 2]]) 0xFE 2 [] rfl (by decide) (by decide),
   C12_isNewTagPresent_result (bootedSketch [[0xFD, 1]]) 0xFD 1 [] rfl (by decide) (by decide)⟩

/-- C13 at the responses `[0xDB, 0x92]` (0x92) and `[0x00, 0x92]` (0xFF). -/
theorem C13_getMiFareVersion_result_witness :
    (0xDB : Nat) < 256 ∧ (0x92 : Nat) < 256 ∧
    (getMiFareVersion (bootedSketch [[0xDB, 0x92]])).value? = some 0x92 ∧
    (getMiFareVersion (bootedSketch [[0x00, 0x92]])).value? = some 0xFF :=
  ⟨by decide, by decide,
   (C13_getMiFareVersion_result (bootedSketch [[0xDB, 0x92]]) 0xDB 0x92 [] rfl (by decide)
     (by decide)).1 rfl,
   (C13_getMiFareVersion_result (bootedSketch [[0x00, 0x92]]) 0x00 0x92 [] rfl (by decide)
     (by decide)).2 (by decide)⟩

/-- C14: for every Tag Record state and every script of responses, one call and any number `n`
of successive calls of `isNewTagPresent` leave the Tag Record exactly as it was. -/
theorem C14_isNewTagPresent_keeps_tag (n : Nat) (s : Sketch) :
    (isNewTagPresent s).state.tag = s.tag ∧ (pollPresence n s).state.tag = s.tag := by
  refine ⟨keepsTag_isNewTagPresent s, ?_⟩
  induction n generalizing s with
  | zero => rfl
  | succ n ih =>
    unfold pollPresence
    exact keepsTag_bind _ _ _ (keepsTag_isNewTagPresent s) (fun _ s1 => ih s1)

/-- C15 (the code at a failing input): after the first response `[0xFC, 1]`, the second
response `[0x00, 1, 'A']`, whose leading byte is not GET_FIRMWARE, still yields "A" and not
the empty string.  Only the first response is checked: `[0x00, 1]` yields "". -/
theorem C15_getFirmwareVersion_second_phase_unchecked :
    (getFirmwareVersion (bootedSketch [[0xFC, 1], [0x00, 1, 65]])).value? = some "A" ∧
    (getFirmwareVersion (bootedSketch [[0xFC, 1], [0x00, 1, 65]])).value? ≠ some "" ∧
    (getFirmwareVersion (bootedSketch [[0x00, 1], [0xFC, 1, 65]])).value? = some "" := by
  decide

/-- C16 (counterexample): after `setup` from power-on, on an empty bus as well as on a bus
with a reader that boots, the Tag Record has `id = 0x00`, not the sentinel 0xFF. -/
theorem C16_counterexample_tag_after_setup :
    (setup (powerOn (silentBus []))).state.tag.id = 0x00 ∧
    (setup (powerOn (silentBus []))).state.tag.id ≠ 0xFF ∧
    (setup (powerOn (busWithReader bootReplies))).value? = some () ∧
    (setup (powerOn (busWithReader bootReplies))).state.tag.id = 0x00 ∧
    (setup (powerOn (busWithReader bootReplies))).state.tag.id ≠ 0xFF := by
  decide

/-- C16 (amended): `setup` leaves the Tag Record as it was, for every bus behaviour; from
power-on that is the zero-initialised record, `id = 0x00` and `size = 0`. -/
theorem C16_setup_leaves_tag (s : Sketch) (w : TwoWire) :
    (setup s).state.tag = s.tag ∧
    (setup (powerOn w)).state.tag.id = 0x00 ∧
    (setup (powerOn w)).state.tag.size = 0 := by
  have h : ∀ s0 : Sketch, (setup s0).state.tag = s0.tag := by
    intro s0
    unfold setup
    rw [keepsTag_initReaders, initCommBus_tag]
  refine ⟨h s, ?_, ?_⟩
  · rw [h]; rfl
  · rw [h]; rfl

/-- C17: starting unbound (`deviceAddr = 0xFF`), `initCommBus` leaves `deviceAddr = 0xFF` if
no address in 0..126 reports status 0, and otherwise binds the greatest address in 0..126
that reports status 0. -/
theorem C17_initCommBus_binds_last_responder (s : Sketch) (hunbound : s.deviceAddr = 0xFF) :
    ((∀ a, a < 127 → s.wire.status a ≠ 0) → (initCommBus s).deviceAddr = 0xFF) ∧
    (∀ a, a < 127 → s.wire.status a = 0 →
      (∀ b, a < b → b < 127 → s.wire.status b ≠ 0) → (initCommBus s).deviceAddr = a) := by
  constructor
  · intro h
    rw [initCommBus_silent s h, hunbound]
  · intro a ha hack hlast
    exact initCommBus_last_responder s a ha hack hlast

/-- C17 on a bus where the addresses 8 and 32 acknowledge: the session is bound to 32. -/
theorem C17_initCommBus_binds_last_responder_witness :
    (powerOn busWithTwoResponders).deviceAddr = 0xFF ∧
    (powerOn busWithTwoResponders).wire.status 32 = 0 ∧
    (powerOn busWithTwoResponders).wire.status 8 = 0 ∧
    (initCommBus (powerOn busWithTwoResponders)).deviceAddr = 32 :=
  ⟨rfl, rfl, rfl,
   (C17_initCommBus_binds_last_responder (powerOn busWithTwoResponders) rfl).2 32 (by decide) rfl
     (by intro b h1 h2; simp [powerOn, busWithTwoResponders]; omega)⟩

/-- C19: every driver operation writes one transmission of exactly one byte, its opcode
(0xFA, 0xFB, 0xDC, 0xFE, 0xDB, 0xFD; `getFirmwareVersion` writes 0xFC each time), and then
requests its fixed size (1, 1, 2, 2, 2, 14; 2 for the firmware preamble).  BAD_CARD is never
written, and a response that leads with BAD_CARD is a mismatch like any other. -/
theorem C19_opcodes_and_response_sizes (s : Sketch) :
    (written s (detect s).state = [(s.deviceAddr, [0xFA])] ∧
      (detect s).state.wire.requested = s.wire.requested ++ [(s.deviceAddr, 1)]) ∧
    (written s (doInit s).state = [(s.deviceAddr, [0xFB])] ∧
      (doInit s).state.wire.requested = s.wire.requested ++ [(s.deviceAddr, 1)]) ∧
    (written s (selfTest s).state = [(s.deviceAddr, [0xDC])] ∧
      (selfTest s).state.wire.requested = s.wire.requested ++ [(s.deviceAddr, 2)]) ∧
    (written s (isNewTagPresent s).state = [(s.deviceAddr, [0xFE])] ∧
      (isNewTagPresent s).state.wire.requested = s.wire.requested ++ [(s.deviceAddr, 2)]) ∧
    (written s (getMiFareVersion s).state = [(s.deviceAddr, [0xDB])] ∧
      (getMiFareVersion s).state.wire.requested = s.wire.requested ++ [(s.deviceAddr, 2)]) ∧
    (written s (getTagData s).state = [(s.deviceAddr, [0xFD])] ∧
      (getTagData s).state.wire.requested = s.wire.requested ++ [(s.deviceAddr, 14)]) ∧
    ((∀ e ∈ written s (getFirmwareVersion s).state, e = (s.deviceAddr, [0xFC])) ∧
      (written s (getFirmwareVersion s).state).head? = some (s.deviceAddr, [0xFC]) ∧
      ∃ more, (getFirmwareVersion s).state.wire.requested =
        s.wire.requested ++ (s.deviceAddr, 2) :: more) ∧
    (∀ e ∈ written s (detect s).state ++ written s (doInit s).state ++
        written s (selfTest s).state ++ written s (isNewTagPresent s).state ++
        written s (getMiFareVersion s).state ++ written s (getTagData s).state ++
        written s (getFirmwareVersion s).state, e.2 ≠ [FOBREADER_BAD_CARD]) ∧
    (∀ t rest, s.wire.replies = (FOBREADER_BAD_CARD :: t) :: rest →
      (detect s).value? = some false ∧ (doInit s).value? = some false ∧
      (selfTest s).value? = some false ∧ (isNewTagPresent s).value? = some false ∧
      (getMiFareVersion s).value? = some 0xFF ∧ (getTagData s).value? = some false ∧
      (getFirmwareVersion s).value? = some "") := by
  have hfw := getFirmwareVersion_traffic s
  have hd : written s (detect s).state = [(s.deviceAddr, [0xFA])] := by
    rw [detect_state]; exact written_afterExchange _ _ _ _ _
  have hi : written s (doInit s).state = [(s.deviceAddr, [0xFB])] := by
    rw [doInit_state]; exact written_afterExchange _ _ _ _ _
  have hst : written s (selfTest s).state = [(s.deviceAddr, [0xDC])] := selfTest_written s
  have hp : written s (isNewTagPresent s).state = [(s.deviceAddr, [0xFE])] :=
    isNewTagPresent_written s
  have hm : written s (getMiFareVersion s).state = [(s.deviceAddr, [0xDB])] := by
    rw [getMiFareVersion_state]; exact written_afterExchange _ _ _ _ _
  have ht : written s (getTagData s).state = [(s.deviceAddr, [0xFD])] := getTagData_written s
  refine ⟨⟨hd, ?_⟩, ⟨hi, ?_⟩, ⟨hst, ?_⟩, ⟨hp, ?_⟩, ⟨hm, ?_⟩, ⟨ht, ?_⟩, hfw, ?_, ?_⟩
  · rw [detect_state]; rfl
  · rw [doInit_state]; rfl
  · rw [selfTest_state]; rfl
  · rw [isNewTagPresent_state]; rfl
  · rw [getMiFareVersion_state]; rfl
  · exact getTagData_requested s
  · intro e he
    rw [hd, hi, hst, hp, hm, ht] at he
    simp only [List.mem_append, List.mem_singleton] at he
    rcases he with ((((((h | h) | h) | h) | h) | h) | h)
    · rw [h]; simp [FOBREADER_BAD_CARD]
    · rw [h]; simp [FOBREADER_BAD_CARD]
    · rw [h]; simp [FOBREADER_BAD_CARD]
    · rw [h]; simp [FOBREADER_BAD_CARD]
    · rw [h]; simp [FOBREADER_BAD_CARD]
    · rw [h]; simp [FOBREADER_BAD_CARD]
    · rw [hfw.1 e h]; simp [FOBREADER_BAD_CARD, FOBREADER_GET_FIRMWARE]
  · intro t rest hr
    have hx := fun op len => exchange_cons op len s FOBREADER_BAD_CARD t rest hr
    have hx1 := fun op => exchange1_cons op s FOBREADER_BAD_CARD t rest hr
    refine ⟨?_, ?_, ?_, ?_, ?_, ?_, ?_⟩
    · unfold detect; rw [hx1]; rfl
    · unfold doInit; rw [hx1]; rfl
    · unfold selfTest; rw [hx, bind_done]
      cases t <;> rfl
    · unfold isNewTagPresent; rw [hx, bind_done]
      cases t <;> rfl
    · unfold getMiFareVersion; rw [hx, bind_done]
      cases t <;> rfl
    · unfold getTagData; rw [hx, bind_done]
      rfl
    · unfold getFirmwareVersion; rw [hx, bind_done]
      cases t <;> rfl

/-- C19 at a response that leads with BAD_CARD: the failure values, and the traffic of
`getTagData`. -/
theorem C19_opcodes_and_response_sizes_witness :
    (bootedSketch [[0xDD, 1]]).wire.replies = (FOBREADER_BAD_CARD :: [1]) :: [] ∧
    (selfTest (bootedSketch [[0xDD, 1]])).value? = some false ∧
    (isNewTagPresent (bootedSketch [[0xDD, 1]])).value? = some false ∧
    written (bootedSketch [[0xDD, 1]]) (getTagData (bootedSketch [[0xDD, 1]])).state
      = [(8, [0xFD])] ∧
    (getTagData (bootedSketch [[0xDD, 1]])).state.wire.requested = [(8, 14)] :=
  have h := C19_opcodes_and_response_sizes (bootedSketch [[0xDD, 1]])
  ⟨rfl, (h.2.2.2.2.2.2.2.2 [1] [] rfl).2.2.1, (h.2.2.2.2.2.2.2.2 [1] [] rfl).2.2.2.1,
   h.2.2.2.2.2.1.1, h.2.2.2.2.2.1.2⟩

/-- C20 (the code on every declared length): after the first response `[GET_FIRMWARE, L]` the
second request asks for `(L + 2) % 256` bytes, which is `L + 2` only up to `L = 253`. -/
theorem C20_second_phase_request_count (s : Sketch) (L : Nat) (rest : List (List Nat))
    (hr : s.wire.replies = [FOBREADER_GET_FIRMWARE, L] :: rest) (hL : L < 256) :
    (getFirmwareVersion s).state.wire.requested =
      s.wire.requested ++
        [(s.deviceAddr, FOBREADER_FW_PREAMBLE_SIZE),
         (s.deviceAddr, (L + FOBREADER_FW_PREAMBLE_SIZE) % 256)] ∧
    ((L + FOBREADER_FW_PREAMBLE_SIZE) % 256 = L + FOBREADER_FW_PREAMBLE_SIZE ↔ L ≤ 253) := by
  have hx := exchange_cons FOBREADER_GET_FIRMWARE FOBREADER_FW_PREAMBLE_SIZE s _ _ _ hr
  have h0 : (rxRead FOBREADER_FW_PREAMBLE_SIZE [FOBREADER_GET_FIRMWARE, L]).getD 0 0
      = FOBREADER_GET_FIRMWARE := by
    simp [rxRead, FOBREADER_FW_PREAMBLE_SIZE, FOBREADER_GET_FIRMWARE]
  have h1 : (rxRead FOBREADER_FW_PREAMBLE_SIZE [FOBREADER_GET_FIRMWARE, L]).getD 1 0 = L := by
    simp [rxRead, FOBREADER_FW_PREAMBLE_SIZE, Nat.mod_eq_of_lt hL]
  constructor
  · unfold getFirmwareVersion
    rw [hx, bind_done, if_pos h0, h1]
    simp only []
    rw [state_bind_done, exchange_state]
    simp [afterExchange, FOBREADER_FW_PREAMBLE_SIZE]
  · simp only [FOBREADER_FW_PREAMBLE_SIZE]
    omega

/-- C20 at the failing inputs: `L = 254` asks for 0 bytes (and then waits for ever), and
`L = 255` asks for 1 byte and still scans 255 payload cells. -/
theorem C20_second_phase_request_count_witness :
    (254 : Nat) < 256 ∧
    (getFirmwareVersion (bootedSketch [[0xFC, 254]])).state.wire.requested = [(8, 2), (8, 0)] ∧
    (getFirmwareVersion (bootedSketch [[0xFC, 254]])).value? = none ∧
    (getFirmwareVersion (bootedSketch [[0xFC, 255], [0xFC]])).state.wire.requested
      = [(8, 2), (8, 1)] ∧
    ((getFirmwareVersion (bootedSketch [[0xFC, 255], [0xFC]])).value?.map String.length)
      = some 255 :=
  ⟨by decide,
   (C20_second_phase_request_count (bootedSketch [[0xFC, 254]]) 254 [] rfl (by decide)).1,
   by decide,
   (C20_second_phase_request_count (bootedSketch [[0xFC, 255], [0xFC]]) 255 [[0xFC]] rfl
     (by decide)).1,
   by decide⟩

end FobReader
